import Mathlib

/-!
Shallow embedding of the Player Performance API (src/server.js and
src/database/setup.js): an Express + Sequelize CRUD service with JWT
authentication and a single privileged role ("coach").

Conventions of the embedding:
* A JSON request body is one record, exactly as `req.body` is one object
  that each handler destructures; every field is a `JVal`: a missing key
  (undefined), an explicit null, or a value.  Truthiness treats undefined
  and null alike, but the ORM's update drops only undefined values and
  keeps an explicit null, which clears a nullable column or fails a
  notNull validation; on create, a column default applies only to an
  undefined value.
* JavaScript truthiness of the destructured fields is modelled by
  `truthyS` / `truthyN` (undefined, null, the empty string and the number 0
  are falsy).
* Storage (Sequelize over SQLite) is a record of lists plus fresh-id
  counters.  Model-level validations from src/database/setup.js
  (rating 1..10, passAccuracy 0..100, role isIn, name length) and the
  declared foreign keys (playerId and coachId on the child tables, userId
  on Players) run inside the `create` operations; Player.update validates
  its supplied values (notNull name) before the query and enforces the
  userId foreign key when a row is actually written.  A failing storage
  call raises, which each route's try/catch turns into a 500 response.
* `passAccuracy` is a FLOAT column; it is modelled as `Rat`, which is
  faithful for every range comparison the code performs.
* The password-hashing and token-verification primitives are external
  collaborators (spec section 1); they are modelled from the spec where
  noted on their definitions.
-/

namespace PlayerAPI

/-- A JSON field as a handler destructures it: a missing key (undefined),
an explicit null, or a value.  The distinction matters because the ORM's
update keeps an explicit null while it drops an undefined value. -/
inductive JVal (α : Type)
  | undef
  | null
  | val (a : α)
deriving Repr, DecidableEq

namespace JVal

/-- The value, or a fallback when the field is undefined or null. -/
def getD : JVal α → α → α
  | .val a, _ => a
  | _, d => d

/-- Whether the field holds a proper value: the JS check `x == null` is
false exactly here. -/
def isVal : JVal α → Bool
  | .val _ => true
  | _ => false

/-- Whether the field is an explicit null. -/
def isNull : JVal α → Bool
  | .null => true
  | _ => false

/-- The stored column value on create for a column without a default:
undefined and null both store NULL. -/
def toOpt : JVal α → Option α
  | .val a => some a
  | _ => none

/-- The stored column value on create for a column with a default: the
default applies only to an undefined value; an explicit null stores
NULL. -/
def orDefault : JVal α → α → Option α
  | .undef, d => some d
  | .null, _ => none
  | .val a, _ => some a

end JVal

/-- JavaScript truthiness of a string field: `undefined`, `null` and the
empty string are falsy. -/
def truthyS : JVal String → Bool
  | .val s => !(s == "")
  | _ => false

/-- JavaScript truthiness of a numeric id field: `undefined`, `null` and
0 are falsy. -/
def truthyN : JVal Nat → Bool
  | .val n => !(n == 0)
  | _ => false

@[simp] theorem JVal.getD_val {α : Type} (a d : α) : (JVal.val a).getD d = a := rfl

@[simp] theorem JVal.getD_undef {α : Type} (d : α) : (JVal.undef : JVal α).getD d = d := rfl

@[simp] theorem JVal.getD_null {α : Type} (d : α) : (JVal.null : JVal α).getD d = d := rfl

@[simp] theorem JVal.isVal_val {α : Type} (a : α) : (JVal.val a).isVal = true := rfl

@[simp] theorem JVal.isVal_undef {α : Type} : (JVal.undef : JVal α).isVal = false := rfl

@[simp] theorem JVal.isVal_null {α : Type} : (JVal.null : JVal α).isVal = false := rfl

@[simp] theorem JVal.isNull_val {α : Type} (a : α) : (JVal.val a).isNull = false := rfl

@[simp] theorem JVal.isNull_undef {α : Type} : (JVal.undef : JVal α).isNull = false := rfl

@[simp] theorem JVal.isNull_null {α : Type} : (JVal.null : JVal α).isNull = true := rfl

@[simp] theorem JVal.toOpt_val {α : Type} (a : α) : (JVal.val a).toOpt = some a := rfl

@[simp] theorem JVal.toOpt_undef {α : Type} : (JVal.undef : JVal α).toOpt = none := rfl

@[simp] theorem JVal.toOpt_null {α : Type} : (JVal.null : JVal α).toOpt = none := rfl

@[simp] theorem truthyS_val (s : String) : truthyS (JVal.val s) = !(s == "") := rfl

@[simp] theorem truthyS_undef : truthyS JVal.undef = false := rfl

@[simp] theorem truthyS_null : truthyS JVal.null = false := rfl

@[simp] theorem truthyN_val (n : Nat) : truthyN (JVal.val n) = !(n == 0) := rfl

@[simp] theorem truthyN_undef : truthyN JVal.undef = false := rfl

@[simp] theorem truthyN_null : truthyN JVal.null = false := rfl

/-- Decoded token payload, as signed at login (src/server.js lines 173-181). -/
structure Claims where
  id : Nat
  role : String
  email : String
deriving Repr, DecidableEq

/-- A signed token: payload, expiry (seconds since epoch) and the key it
was signed with (standing for the signature). -/
structure Token where
  claims : Claims
  exp : Nat
  key : String
deriving Repr, DecidableEq

/-- A bearer-token string as transmitted: either a well-formed signed token
or an unparseable string (bad structure or bad signature). -/
inductive TokenStr
  | garbage (s : String)
  | signed (t : Token)
deriving Repr, DecidableEq

/-- Modelled from the spec: the signing primitive of the external
`jsonwebtoken` library (an out-of-scope collaborator per spec section 1).
The call site (src/server.js lines 173-181) passes `expiresIn: "1d"`,
i.e. 86400 seconds. -/
def jwtSign (c : Claims) (key : String) (now : Nat) : Token :=
  { claims := c, exp := now + 86400, key := key }

inductive VerifyErr
  | expired
  | invalid
deriving Repr, DecidableEq

/-- Modelled from the spec: the verification primitive of the external
`jsonwebtoken` library.  Spec section 8: "A token issued at time T is
accepted for requests up to its expiry and rejected (401) strictly after";
section 3: validity is purely signature plus expiry, and an expired token
is rejected regardless of signature validity is checked signature-first
(a token signed with the wrong key is `invalid`, not `expired`). -/
def jwtVerify (t : TokenStr) (key : String) (now : Nat) : Except VerifyErr Claims :=
  match t with
  | .garbage _ => .error .invalid
  | .signed tok =>
    if tok.key ≠ key then .error .invalid
    else if tok.exp < now then .error .expired
    else .ok tok.claims

/-- Modelled from the spec: the external password hashing primitive
(`bcryptjs`, out of scope per spec section 1): a deterministic stand-in
for a one-way salted hash. -/
def bcryptHash (pw : String) : String := "bcrypt$" ++ pw

/-- Modelled from the spec: bcrypt comparison succeeds exactly when the
submitted secret matches the stored hash. -/
def bcryptCompare (pw : String) (stored : String) : Bool := bcryptHash pw == stored

/-- User row (src/database/setup.js lines 29-53). -/
structure User where
  id : Nat
  name : String
  email : String
  password : String
  role : String
deriving Repr, DecidableEq

/-- Player row (src/database/setup.js lines 58-66 plus the userId foreign
key from line 116). -/
structure Player where
  id : Nat
  name : String
  age : Option Int
  position : Option String
  team : Option String
  userId : Option Nat
deriving Repr, DecidableEq

/-- PerformanceStat row (src/database/setup.js lines 70-88).  goals and
assists are nullable columns with default 0 (the default applies only
when the submitted value is undefined). -/
structure PerformanceStat where
  id : Nat
  playerId : Nat
  goals : Option Int
  assists : Option Int
  passAccuracy : Option Rat
  minutesPlayed : Option Int
  matchDate : String
deriving Repr, DecidableEq

/-- TrainingSession row (src/database/setup.js lines 92-100). -/
structure TrainingSession where
  id : Nat
  playerId : Nat
  date : String
  duration : Option Int
  workoutType : Option String
  notes : Option String
deriving Repr, DecidableEq

/-- CoachEvaluation row (src/database/setup.js lines 104-113). -/
structure CoachEvaluation where
  id : Nat
  playerId : Nat
  coachId : Nat
  rating : Int
  strengths : Option String
  weaknesses : Option String
  comments : Option String
deriving Repr, DecidableEq

/-- The SQLite database: one list per table plus per-table fresh-id
counters (Sequelize integer autoincrement primary keys). -/
structure DB where
  users : List User
  players : List Player
  stats : List PerformanceStat
  sessions : List TrainingSession
  evals : List CoachEvaluation
  nextUserId : Nat
  nextPlayerId : Nat
  nextStatId : Nat
  nextSessionId : Nat
  nextEvalId : Nat
deriving Repr, DecidableEq

/-- Model-level validation on User (src/database/setup.js lines 29-53):
name length 2..50 and role isIn player/coach.  The email-format validator
is an external primitive and no claim depends on it, so it is not
modelled. -/
def userValid (u : User) : Bool :=
  2 ≤ u.name.length && u.name.length ≤ 50 &&
    (u.role == "player" || u.role == "coach")

/-- Model-level validation on PerformanceStat (passAccuracy 0..100,
src/database/setup.js lines 79-82) together with the playerId foreign key
(line 119). -/
def statValid (db : DB) (s : PerformanceStat) : Bool :=
  (match s.passAccuracy with
   | none => true
   | some x => (0 : Rat) ≤ x && x ≤ (100 : Rat)) &&
  db.players.any (fun p => p.id == s.playerId)

/-- Foreign-key check for TrainingSession (src/database/setup.js line 122). -/
def sessionValid (db : DB) (s : TrainingSession) : Bool :=
  db.players.any (fun p => p.id == s.playerId)

/-- Model-level validation on CoachEvaluation (rating 1..10,
src/database/setup.js lines 104-109) together with its two foreign keys
(lines 125 and 128). -/
def evalValid (db : DB) (e : CoachEvaluation) : Bool :=
  (1 ≤ e.rating && e.rating ≤ 10) &&
  db.players.any (fun p => p.id == e.playerId) &&
  db.users.any (fun u => u.id == e.coachId)

/-- User.create: validations plus the unique email constraint; a failure
throws (becomes the catch branch of the caller). -/
def DB.createUser (db : DB) (name email pwHash role : String) :
    Except Unit (User × DB) :=
  let u : User := ⟨db.nextUserId, name, email, pwHash, role⟩
  if userValid u && !(db.users.any (fun v => v.email == email)) then
    .ok (u, { db with users := db.users ++ [u], nextUserId := db.nextUserId + 1 })
  else .error ()

/-- Player.create: no model-level validators, but the Players.userId
column references Users (src/database/setup.js line 116), so an INSERT
with a dangling non-null userId fails. -/
def DB.createPlayer (db : DB) (name : String) (age : Option Int)
    (position team : Option String) (userId : Option Nat) :
    Except Unit (Player × DB) :=
  let p : Player := ⟨db.nextPlayerId, name, age, position, team, userId⟩
  if (match userId with
      | none => true
      | some u => db.users.any (fun v => v.id == u)) then
    .ok (p, { db with players := db.players ++ [p],
                      nextPlayerId := db.nextPlayerId + 1 })
  else .error ()

/-- PerformanceStat.create: goals and assists default to 0 when undefined
(src/database/setup.js lines 71-78); validation or foreign-key failure
throws. -/
def DB.createStat (db : DB) (playerId : Nat) (goals assists : JVal Int)
    (passAccuracy : JVal Rat) (minutesPlayed : JVal Int)
    (matchDate : String) : Except Unit (PerformanceStat × DB) :=
  let s : PerformanceStat :=
    ⟨db.nextStatId, playerId, goals.orDefault 0, assists.orDefault 0,
      passAccuracy.toOpt, minutesPlayed.toOpt, matchDate⟩
  if statValid db s then
    .ok (s, { db with stats := db.stats ++ [s], nextStatId := db.nextStatId + 1 })
  else .error ()

/-- TrainingSession.create. -/
def DB.createSession (db : DB) (playerId : Nat) (date : String)
    (duration : JVal Int) (workoutType notes : JVal String) :
    Except Unit (TrainingSession × DB) :=
  let s : TrainingSession :=
    ⟨db.nextSessionId, playerId, date, duration.toOpt, workoutType.toOpt,
      notes.toOpt⟩
  if sessionValid db s then
    .ok (s, { db with sessions := db.sessions ++ [s],
                      nextSessionId := db.nextSessionId + 1 })
  else .error ()

/-- CoachEvaluation.create. -/
def DB.createEval (db : DB) (playerId coachId : Nat) (rating : Int)
    (strengths weaknesses comments : JVal String) :
    Except Unit (CoachEvaluation × DB) :=
  let e : CoachEvaluation :=
    ⟨db.nextEvalId, playerId, coachId, rating, strengths.toOpt,
      weaknesses.toOpt, comments.toOpt⟩
  if evalValid db e then
    .ok (e, { db with evals := db.evals ++ [e], nextEvalId := db.nextEvalId + 1 })
  else .error ()

/-- Player.destroy where id: returns the number of deleted rows; the
declared `onDelete: CASCADE` associations (src/database/setup.js lines
119-126) remove the player's stats, sessions and evaluations with it. -/
def DB.destroyPlayer (db : DB) (id : Nat) : Nat × DB :=
  let n := (db.players.filter (fun p => p.id == id)).length
  (n, { db with
        players := db.players.filter (fun p => !(p.id == id)),
        stats := db.stats.filter (fun s => !(s.playerId == id)),
        sessions := db.sessions.filter (fun s => !(s.playerId == id)),
        evals := db.evals.filter (fun e => !(e.playerId == id)) })

/-- The one JSON request body, as `req.body` is one object each handler
destructures; a missing key is `.undef`, an explicit JSON null is
`.null`. -/
structure Body where
  name : JVal String := .undef
  email : JVal String := .undef
  password : JVal String := .undef
  role : JVal String := .undef
  age : JVal Int := .undef
  position : JVal String := .undef
  team : JVal String := .undef
  userId : JVal Nat := .undef
  playerId : JVal Nat := .undef
  goals : JVal Int := .undef
  assists : JVal Int := .undef
  passAccuracy : JVal Rat := .undef
  minutesPlayed : JVal Int := .undef
  matchDate : JVal String := .undef
  date : JVal String := .undef
  duration : JVal Int := .undef
  workoutType : JVal String := .undef
  notes : JVal String := .undef
  coachId : JVal Nat := .undef
  rating : JVal Int := .undef
  strengths : JVal String := .undef
  weaknesses : JVal String := .undef
  comments : JVal String := .undef
deriving Repr, DecidableEq

/-- An evaluation as shaped by GET /api/evaluations/:playerId, which
includes the coach's name and email (src/server.js lines 377-389). -/
structure EvalView where
  eval : CoachEvaluation
  coach : Option (String × String)
deriving Repr, DecidableEq

/-- The JSON response bodies the routes produce. -/
inductive RespBody
  | empty
  | err (error : String)
  | msg (message : String)
  | registered (message : String) (id : Nat) (name : String) (email : String)
  | loggedIn (message : String) (token : Token) (id : Nat) (name : String)
      (email : String) (role : String)
  | player (p : Player)
  | players (ps : List Player)
  | stat (s : PerformanceStat)
  | stats (ss : List PerformanceStat)
  | session (s : TrainingSession)
  | sessions (ss : List TrainingSession)
  | evaluation (e : CoachEvaluation)
  | evaluations (es : List EvalView)
deriving Repr, DecidableEq

structure Response where
  status : Nat
  body : RespBody
deriving Repr, DecidableEq

/-- The Authorization header: absent, present without the Bearer scheme,
or a bearer token string. -/
inductive AuthHeader
  | missing
  | noBearer (s : String)
  | bearer (t : TokenStr)
deriving Repr, DecidableEq

/-- requireAuth middleware (src/server.js lines 24-49). -/
def requireAuth (key : String) (now : Nat) (h : AuthHeader) :
    Except Response Claims :=
  match h with
  | .missing => .error ⟨401, .err "Access denied. No token provided."⟩
  | .noBearer _ => .error ⟨401, .err "Access denied. No token provided."⟩
  | .bearer t =>
    match jwtVerify t key now with
    | .ok c => .ok c
    | .error .expired => .error ⟨401, .err "Token expired. Please log in again."⟩
    | .error .invalid => .error ⟨401, .err "Invalid token. Please log in again."⟩

/-- requireCoach middleware (src/server.js lines 51-58).  It runs after
requireAuth, so `req.user` is `some c` on every actual path. -/
def requireCoach (u : Option Claims) : Except Response Unit :=
  match u with
  | none => .error ⟨401, .err "Authentication required"⟩
  | some c =>
    if c.role == "coach" then .ok ()
    else .error ⟨403, .err "Manager or Admin role required"⟩

/-- The role stored at registration: the expression `role || "player"`
(src/server.js line 136) — the submitted role when truthy, else the
default "player". -/
def regRole (b : Body) : String :=
  if truthyS b.role then b.role.getD "" else "player"

/-- POST /auth/register handler (src/server.js lines 117-152). -/
def authRegister (db : DB) (b : Body) : Response × DB :=
  if !(truthyS b.name && truthyS b.email && truthyS b.password) then
    (⟨400, .err "Name, email, and password are required"⟩, db)
  else if (db.users.find? (fun u => u.email == b.email.getD "")).isSome then
    (⟨400, .err "Email already in use"⟩, db)
  else
    match db.createUser (b.name.getD "") (b.email.getD "")
        (bcryptHash (b.password.getD "")) (regRole b) with
    | .ok (u, db') =>
      (⟨201, .registered "User registered successfully" u.id u.name u.email⟩, db')
    | .error _ => (⟨500, .err "Failed to register user"⟩, db)

/-- POST /auth/login handler (src/server.js lines 155-198). -/
def authLogin (key : String) (now : Nat) (db : DB) (b : Body) :
    Response × DB :=
  if !(truthyS b.email && truthyS b.password) then
    (⟨400, .err "Email and password required"⟩, db)
  else
    match db.users.find? (fun u => u.email == b.email.getD "") with
    | none => (⟨401, .err "Invalid email or password"⟩, db)
    | some u =>
      if !(bcryptCompare (b.password.getD "") u.password) then
        (⟨401, .err "Invalid email or password"⟩, db)
      else
        let t := jwtSign ⟨u.id, u.role, u.email⟩ key now
        (⟨200, .loggedIn "Login successful" t u.id u.name u.email u.role⟩, db)

/-- GET /api/players/:id handler (src/server.js lines 218-229). -/
def playersShow (db : DB) (id : Nat) : Response × DB :=
  match db.players.find? (fun p => p.id == id) with
  | none => (⟨404, .err "Player not found"⟩, db)
  | some p => (⟨200, .player p⟩, db)

/-- POST /api/players handler (src/server.js lines 232-251); note
`userId: userId || null`; a storage failure (dangling userId foreign key)
is answered by the catch with 500. -/
def playersCreate (db : DB) (b : Body) : Response × DB :=
  if !(truthyS b.name) then (⟨400, .err "Name is required"⟩, db)
  else
    match db.createPlayer (b.name.getD "") b.age.toOpt b.position.toOpt
        b.team.toOpt (if truthyN b.userId then b.userId.toOpt else none) with
    | .ok (p, db') => (⟨201, .player p⟩, db')
    | .error _ => (⟨500, .err "Failed to create player"⟩, db)

/-- Sequelize Model.update value application on one row: a supplied value
overwrites, an explicit null clears a nullable column, an undefined key
is skipped.  A null name never reaches a row — update validation rejects
it first — so the name position only consumes proper values. -/
def Player.applyUpdate (p : Player) (b : Body) : Player :=
  { p with
    name := b.name.getD p.name,
    age := match b.age with | .undef => p.age | .null => none | .val a => some a,
    position := match b.position with
      | .undef => p.position
      | .null => none
      | .val s => some s,
    team := match b.team with | .undef => p.team | .null => none | .val s => some s,
    userId := match b.userId with
      | .undef => p.userId
      | .null => none
      | .val u => some u }

/-- Player.update where id (src/server.js lines 258-261): Sequelize drops
only undefined values, validates the kept ones before the query (name is
notNull, so an explicit null name throws), then runs one UPDATE during
which a matched row taking a dangling userId violates the foreign key and
aborts.  Returns the affected-row count and the new state, or the thrown
error. -/
def DB.updatePlayer (db : DB) (id : Nat) (b : Body) :
    Except Unit (Nat × DB) :=
  if b.name.isNull then .error ()
  else
    let n := (db.players.filter (fun p => p.id == id)).length
    if (!(n == 0) && (match b.userId with
        | .val u => !(db.users.any (fun v => v.id == u))
        | _ => false)) then .error ()
    else
      let updated := db.players.map (fun p => if p.id == id then p.applyUpdate b else p)
      .ok (n, { db with players := updated })

/-- PUT /api/players/:id handler body (src/server.js lines 254-272):
update then refetch; a validation or foreign-key error from the update is
answered by the catch with 500.  The refetch cannot miss when a row was
updated; the unreachable branch mirrors `res.json(null)`. -/
def playersUpdate (db : DB) (id : Nat) (b : Body) : Response × DB :=
  match db.updatePlayer id b with
  | .error _ => (⟨500, .err "Failed to update player"⟩, db)
  | .ok (n, db') =>
    if n == 0 then (⟨404, .err "Player not found"⟩, db)
    else
      match db'.players.find? (fun p => p.id == id) with
      | some p => (⟨200, .player p⟩, db')
      | none => (⟨200, .empty⟩, db')

/-- DELETE /api/players/:id handler (src/server.js lines 275-289). -/
def playersDelete (db : DB) (id : Nat) : Response × DB :=
  let (n, db') := db.destroyPlayer id
  if n == 0 then (⟨404, .err "Player not found"⟩, db)
  else (⟨200, .msg "Player deleted successfully"⟩, db')

/-- GET /api/stats/:playerId handler (src/server.js lines 293-304). -/
def statsIndex (db : DB) (playerId : Nat) : Response × DB :=
  (⟨200, .stats (db.stats.filter (fun s => s.playerId == playerId))⟩, db)

/-- POST /api/stats handler (src/server.js lines 307-335). -/
def statsCreate (db : DB) (b : Body) : Response × DB :=
  if !(truthyN b.playerId && truthyS b.matchDate) then
    (⟨400, .err "playerId and matchDate required"⟩, db)
  else
    match db.createStat (b.playerId.getD 0) b.goals b.assists b.passAccuracy
        b.minutesPlayed (b.matchDate.getD "") with
    | .ok (s, db') => (⟨201, .stat s⟩, db')
    | .error _ => (⟨500, .err "Failed to create stat"⟩, db)

/-- GET /api/training-sessions/:playerId handler (src/server.js lines
339-350). -/
def sessionsIndex (db : DB) (playerId : Nat) : Response × DB :=
  (⟨200, .sessions (db.sessions.filter (fun s => s.playerId == playerId))⟩, db)

/-- POST /api/training-sessions handler body (src/server.js lines 353-373). -/
def sessionsCreate (db : DB) (b : Body) : Response × DB :=
  if !(truthyN b.playerId && truthyS b.date) then
    (⟨400, .err "playerId and date required"⟩, db)
  else
    match db.createSession (b.playerId.getD 0) (b.date.getD "") b.duration
        b.workoutType b.notes with
    | .ok (s, db') => (⟨201, .session s⟩, db')
    | .error _ => (⟨500, .err "Failed to create session"⟩, db)

/-- GET /api/evaluations/:playerId handler (src/server.js lines 377-389),
joining each evaluation with its coach's name and email. -/
def evalsIndex (db : DB) (playerId : Nat) : Response × DB :=
  (⟨200, .evaluations ((db.evals.filter (fun e => e.playerId == playerId)).map
      (fun e => ⟨e, (db.users.find? (fun u => u.id == e.coachId)).map
        (fun u => (u.name, u.email))⟩))⟩, db)

/-- POST /api/evaluations handler body (src/server.js lines 392-413); note
the presence check is `rating == null`, a null check, not truthiness. -/
def evalsCreate (db : DB) (b : Body) : Response × DB :=
  if !(truthyN b.playerId && truthyN b.coachId && b.rating.isVal) then
    (⟨400, .err "playerId, coachId, and rating required"⟩, db)
  else
    match db.createEval (b.playerId.getD 0) (b.coachId.getD 0)
        (b.rating.getD 0) b.strengths b.weaknesses b.comments with
    | .ok (e, db') => (⟨201, .evaluation e⟩, db')
    | .error _ => (⟨500, .err "Failed to create evaluation"⟩, db)

/-- The routes of src/server.js. -/
inductive Route
  | health
  | root
  | register
  | login
  | logout
  | listPlayers
  | getPlayer (id : Nat)
  | createPlayer
  | putPlayer (id : Nat)
  | deletePlayer (id : Nat)
  | listStats (playerId : Nat)
  | createStat
  | listSessions (playerId : Nat)
  | createSession
  | listEvals (playerId : Nat)
  | createEval
deriving Repr, DecidableEq

/-- An inbound HTTP request. -/
structure Request where
  route : Route
  auth : AuthHeader
  body : Body
deriving Repr, DecidableEq

/-- Which routes mount the requireAuth middleware (read off the route
registrations in src/server.js). -/
def routeRequiresAuth : Route → Bool
  | .health | .root | .register | .login | .logout => false
  | _ => true

/-- Which routes mount the requireCoach middleware (read off the route
registrations in src/server.js: lines 254, 353, 392). -/
def routeRequiresCoach : Route → Bool
  | .putPlayer _ => true
  | .createSession => true
  | .createEval => true
  | _ => false

/-- Run the requireAuth middleware in front of a handler. -/
def withAuth (key : String) (now : Nat) (db : DB) (h : AuthHeader)
    (k : Claims → Response × DB) : Response × DB :=
  match requireAuth key now h with
  | .error r => (r, db)
  | .ok c => k c

/-- Run the requireCoach middleware in front of a handler. -/
def withCoach (db : DB) (c : Claims) (k : Claims → Response × DB) :
    Response × DB :=
  match requireCoach (some c) with
  | .error r => (r, db)
  | .ok _ => k c

/-- The whole application: route dispatch with the middleware chains as
registered in src/server.js. -/
def app (key : String) (now : Nat) (db : DB) (req : Request) :
    Response × DB :=
  match req.route with
  | .health => (⟨200, .msg "Player Performance API is running"⟩, db)
  | .root => (⟨200, .msg "Welcome to the Player Performance API"⟩, db)
  | .register => authRegister db req.body
  | .login => authLogin key now db req.body
  | .logout => (⟨200, .msg "Logged out successfully"⟩, db)
  | .listPlayers =>
    withAuth key now db req.auth (fun _ => (⟨200, .players db.players⟩, db))
  | .getPlayer i => withAuth key now db req.auth (fun _ => playersShow db i)
  | .createPlayer =>
    withAuth key now db req.auth (fun _ => playersCreate db req.body)
  | .putPlayer i =>
    withAuth key now db req.auth (fun c =>
      withCoach db c (fun _ => playersUpdate db i req.body))
  | .deletePlayer i =>
    withAuth key now db req.auth (fun _ => playersDelete db i)
  | .listStats pid => withAuth key now db req.auth (fun _ => statsIndex db pid)
  | .createStat =>
    withAuth key now db req.auth (fun _ => statsCreate db req.body)
  | .listSessions pid =>
    withAuth key now db req.auth (fun _ => sessionsIndex db pid)
  | .createSession =>
    withAuth key now db req.auth (fun c =>
      withCoach db c (fun _ => sessionsCreate db req.body))
  | .listEvals pid => withAuth key now db req.auth (fun _ => evalsIndex db pid)
  | .createEval =>
    withAuth key now db req.auth (fun c =>
      withCoach db c (fun _ => evalsCreate db req.body))

/-! ### Concrete states used to instantiate the theorems -/

/-- The empty store, as after `db.sync` on a fresh database. -/
def db0 : DB := ⟨[], [], [], [], [], 1, 1, 1, 1, 1⟩

/-- A store with one coach identity and one player profile. -/
def db1 : DB :=
  ⟨[⟨1, "Coach Carter", "c@x.com", bcryptHash "pw", "coach"⟩],
   [⟨1, "Leo", none, none, none, none⟩], [], [], [], 2, 2, 1, 1, 1⟩

/-- A valid coach token for key "k", expiring at 86400. -/
def tokCoach : Token := ⟨⟨1, "coach", "c@x.com"⟩, 86400, "k"⟩

/-- A valid player-role token for key "k", expiring at 86400. -/
def tokPlayer : Token := ⟨⟨2, "player", "p@x.com"⟩, 86400, "k"⟩

/-! ### Helper lemmas -/

/-- A well-signed, unexpired token passes requireAuth with its claims. -/
theorem requireAuth_ok (key : String) (now : Nat) (t : Token)
    (hk : t.key = key) (he : now ≤ t.exp) :
    requireAuth key now (.bearer (.signed t)) = .ok t.claims := by
  subst hk
  simp [requireAuth, jwtVerify, Nat.not_lt.mpr he]

theorem authRegister_status_ne (db : DB) (b : Body) :
    (authRegister db b).1.status ≠ 403 := by
  unfold authRegister
  repeat' split
  all_goals simp

theorem authLogin_status_ne (key : String) (now : Nat) (db : DB) (b : Body) :
    (authLogin key now db b).1.status ≠ 403 := by
  unfold authLogin
  split
  · simp
  split
  · simp
  split
  · simp
  · simp

theorem playersShow_status_ne (db : DB) (i : Nat) :
    (playersShow db i).1.status ≠ 403 := by
  unfold playersShow
  split <;> simp

theorem playersCreate_status_ne (db : DB) (b : Body) :
    (playersCreate db b).1.status ≠ 403 := by
  unfold playersCreate
  repeat' split
  all_goals simp

theorem playersUpdate_status_ne (db : DB) (i : Nat) (b : Body) :
    (playersUpdate db i b).1.status ≠ 403 := by
  unfold playersUpdate
  repeat' split
  all_goals simp

theorem playersDelete_status_ne (db : DB) (i : Nat) :
    (playersDelete db i).1.status ≠ 403 := by
  unfold playersDelete
  repeat' split
  all_goals simp

theorem statsCreate_status_ne (db : DB) (b : Body) :
    (statsCreate db b).1.status ≠ 403 := by
  unfold statsCreate
  split
  · simp
  split <;> simp

theorem sessionsCreate_status_ne (db : DB) (b : Body) :
    (sessionsCreate db b).1.status ≠ 403 := by
  unfold sessionsCreate
  split
  · simp
  split <;> simp

theorem evalsCreate_status_ne (db : DB) (b : Body) :
    (evalsCreate db b).1.status ≠ 403 := by
  unfold evalsCreate
  split
  · simp
  split <;> simp

/-- Definitional restatement of DB.createUser exposing its branch
condition, convenient for case splitting. -/
theorem createUser_spec (db : DB) (nm em pw rl : String) :
    db.createUser nm em pw rl =
      (if (userValid ⟨db.nextUserId, nm, em, pw, rl⟩
            && !(db.users.any (fun v => v.email == em))) = true then
        .ok ((⟨db.nextUserId, nm, em, pw, rl⟩ : User),
          { db with users := db.users ++ [⟨db.nextUserId, nm, em, pw, rl⟩],
                    nextUserId := db.nextUserId + 1 })
      else .error ()) := rfl

/-- userValid never inspects the password field. -/
theorem userValid_pw_irrel (id : Nat) (nm em rl p q : String) :
    userValid ⟨id, nm, em, p, rl⟩ = userValid ⟨id, nm, em, q, rl⟩ := rfl

/-- The response half of registration, written without the submitted
secret: registration's observable outcome never depends on the password
beyond its presence. -/
def regRespView (db : DB) (b : Body) : Response :=
  if !(truthyS b.name && truthyS b.email && truthyS b.password) then
    ⟨400, .err "Name, email, and password are required"⟩
  else if (db.users.find? (fun u => u.email == b.email.getD "")).isSome then
    ⟨400, .err "Email already in use"⟩
  else if userValid ⟨db.nextUserId, b.name.getD "", b.email.getD "", "", regRole b⟩
      && !(db.users.any (fun v => v.email == b.email.getD "")) then
    ⟨201, .registered "User registered successfully" db.nextUserId
      (b.name.getD "") (b.email.getD "")⟩
  else ⟨500, .err "Failed to register user"⟩

/-- Registration's response equals the password-free view. -/
theorem authRegister_fst (db : DB) (b : Body) :
    (authRegister db b).1 = regRespView db b := by
  unfold authRegister regRespView
  split
  · rfl
  split
  · rfl
  rw [createUser_spec, userValid_pw_irrel db.nextUserId (b.name.getD "")
    (b.email.getD "") (regRole b) "" (bcryptHash (b.password.getD ""))]
  split <;> rename_i heq <;> split at heq <;> cases heq <;> simp [*]

/-! ### Claim C3 -/

/-- C3: for every login attempt that fails, the two failure causes — no
identity matches the submitted email, and the email matches but the secret
does not match the stored hash — produce the identical observable outcome:
status 401 with the error body "Invalid email or password", and the store
untouched, so the response does not reveal which part was wrong. -/
theorem c3_login_failures_identical (key : String) (now : Nat) (db : DB)
    (b : Body) (he : truthyS b.email = true) (hp : truthyS b.password = true) :
    (db.users.find? (fun u => u.email == b.email.getD "") = none →
      authLogin key now db b = (⟨401, .err "Invalid email or password"⟩, db))
    ∧ (∀ u : User, db.users.find? (fun u => u.email == b.email.getD "") = some u →
      bcryptCompare (b.password.getD "") u.password = false →
      authLogin key now db b = (⟨401, .err "Invalid email or password"⟩, db)) := by
  constructor
  · intro hnone
    simp [authLogin, he, hp, hnone]
  · intro u hu hcmp
    simp [authLogin, he, hp, hu, hcmp]

/-- Witness for C3: in a store holding one coach account, a login with an
unknown email and a login with the right email but wrong secret both
produce exactly the 401 "Invalid email or password" response. -/
theorem c3_login_failures_witness :
    authLogin "k" 0 db1 { email := .val "no@x.com", password := .val "pw" }
      = (⟨401, .err "Invalid email or password"⟩, db1)
    ∧ authLogin "k" 0 db1 { email := .val "c@x.com", password := .val "bad" }
      = (⟨401, .err "Invalid email or password"⟩, db1) := by
  constructor
  · exact (c3_login_failures_identical "k" 0 db1
      { email := .val "no@x.com", password := .val "pw" } rfl rfl).1 (by decide)
  · exact (c3_login_failures_identical "k" 0 db1
      { email := .val "c@x.com", password := .val "bad" } rfl rfl).2
      ⟨1, "Coach Carter", "c@x.com", bcryptHash "pw", "coach"⟩ (by decide) (by decide)

/-! ### Claim C7 -/

/-- C7: for every successful registration, the returned user summary
contains exactly the non-secret fields id, name and email of the created
identity (the `registered` response shape has no secret slot), and the
response is independent of the submitted secret — two registrations
differing only in the password yield identical responses. -/
theorem c7_register_summary_excludes_secret (db : DB) (b : Body) :
    (∀ m i n em, (authRegister db b).1.body = .registered m i n em →
      i = db.nextUserId ∧ n = b.name.getD "" ∧ em = b.email.getD "")
    ∧ (∀ p₁ p₂ : JVal String, truthyS p₁ = true → truthyS p₂ = true →
      (authRegister db { b with password := p₁ }).1
        = (authRegister db { b with password := p₂ }).1) := by
  constructor
  · intro m i n em h
    rw [authRegister_fst] at h
    unfold regRespView at h
    split at h
    · simp at h
    split at h
    · simp at h
    split at h
    · simp only [RespBody.registered.injEq] at h
      exact ⟨h.2.1.symm, h.2.2.1.symm, h.2.2.2.symm⟩
    · simp at h
  · intro p₁ p₂ h₁ h₂
    rw [authRegister_fst, authRegister_fst]
    simp [regRespView, regRole, h₁, h₂]

/-- A concrete registration body used by the C7 witness. -/
def regBody (pw : String) : Body :=
  { name := .val "Ana", email := .val "a@x.com", password := .val pw }

/-- Witness for C7: a concrete successful registration returns summary
fields 1, "Ana", "a@x.com", and swapping the password for another leaves
the response unchanged. -/
theorem c7_register_summary_witness :
    ((1 : Nat) = db0.nextUserId ∧ "Ana" = ((regBody "p1").name).getD ""
      ∧ "a@x.com" = ((regBody "p1").email).getD "")
    ∧ (authRegister db0 (regBody "p1")).1 = (authRegister db0 (regBody "p2")).1 := by
  constructor
  · exact (c7_register_summary_excludes_secret db0 (regBody "p1")).1
      "User registered successfully" 1 "Ana" "a@x.com" (by decide)
  · exact (c7_register_summary_excludes_secret db0 (regBody "p0")).2
      (.val "p1") (.val "p2") rfl rfl

/-! ### Claim C10 -/

/-- A registration body whose role key is present but holds the empty
string. -/
def emptyRoleBody : Body := { name := .val "Ana", email := .val "a@x.com", password := .val "p", role := .val "" }

/-- A registration body that self-selects the coach role. -/
def coachRoleBody : Body := { name := .val "Ana", email := .val "a@x.com", password := .val "p", role := .val "coach" }

/-- C10 counterexample: a registration whose body contains the role key
with the empty string — present, not absent — is created with the default
role "player" (the code computes `role || "player"`, which defaults on any
falsy value), refuting "only when role is absent does it default to
player". -/
theorem c10_counterexample_empty_role :
    (authRegister db0 emptyRoleBody).2.users
      = [⟨1, "Ana", "a@x.com", bcryptHash "p", "player"⟩]
    ∧ emptyRoleBody.role = JVal.val "" := by
  constructor
  · rfl
  · decide

/-- C10 amended: registration honors a caller-supplied truthy role with no
authentication or role gate (in particular a request with role "coach"
creates a coach identity), and the stored role defaults to "player"
whenever the submitted role is falsy — absent, null or the empty string —
not only when it is absent. -/
theorem c10_role_selfselect (db : DB) (b : Body) :
    (∀ resp db₂, authRegister db b = (resp, db₂) →
      ∀ m i n em, resp.body = .registered m i n em →
        ∃ u : User, db₂.users = db.users ++ [u] ∧ u.role = regRole b)
    ∧ (b.role = JVal.val "coach" → regRole b = "coach")
    ∧ (truthyS b.role = false → regRole b = "player") := by
  refine ⟨?_, ?_, ?_⟩
  · intro resp db₂ hE m i n em hbody
    simp only [authRegister, createUser_spec] at hE
    split at hE
    · cases hE; simp at hbody
    split at hE
    · cases hE; simp at hbody
    split at hE <;> rename_i heq <;> split at heq <;> cases heq
    · cases hE
      exact ⟨_, rfl, rfl⟩
    · cases hE; simp at hbody
  · intro h
    simp [regRole, h, truthyS]
  · intro h
    simp [regRole, h]

/-- Witness for the amended C10: on the empty store, registering with role
"coach" creates exactly one identity whose stored role is the submitted
"coach". -/
theorem c10_role_selfselect_witness :
    (∃ u : User, (⟨[⟨1, "Ana", "a@x.com", bcryptHash "p", "coach"⟩],
        [], [], [], [], 2, 1, 1, 1, 1⟩ : DB).users = db0.users ++ [u]
      ∧ u.role = regRole coachRoleBody)
    ∧ regRole coachRoleBody = "coach" := by
  constructor
  · exact (c10_role_selfselect db0 coachRoleBody).1
      ⟨201, .registered "User registered successfully" 1 "Ana" "a@x.com"⟩
      ⟨[⟨1, "Ana", "a@x.com", bcryptHash "p", "coach"⟩], [], [], [], [], 2, 1, 1, 1, 1⟩
      (by decide) "User registered successfully" 1 "Ana" "a@x.com" (by decide)
  · exact (c10_role_selfselect db0 coachRoleBody).2.1 rfl

/-! ### Claim C4 -/

/-- An evaluation-create body with all required fields present and a
rating of 11, outside the valid range 1..10. -/
def badRatingBody : Body := { playerId := .val 1, coachId := .val 1, rating := .val 11 }

/-- A stat-create body with all required fields present and passAccuracy
150, outside the valid range 0..100. -/
def badAccuracyBody : Body := { playerId := .val 1, matchDate := .val "2025-10-24", passAccuracy := .val 150 }

/-- C4 counterexample: a coach-authenticated evaluation-create request
with every required field present and rating 11 (outside 1..10) is
rejected with status 500 ("Failed to create evaluation" — the route's
generic catch), not a 400-class ValidationError, though nothing is
persisted (the store is returned unchanged). -/
theorem c4_counterexample_range_is_500 :
    app "k" 0 db1 ⟨.createEval, .bearer (.signed tokCoach), badRatingBody⟩
      = (⟨500, .err "Failed to create evaluation"⟩, db1)
    ∧ (500 : Nat) ≠ 400 := by
  constructor
  · decide
  · decide

/-- C4 amended: a rating outside 1..10 or a passAccuracy outside 0..100 is
indeed rejected at write time with nothing persisted, but the rejection
surfaces as the route's generic 500 storage-failure response, not as a
400 ValidationError. -/
theorem c4_amended_range_rejected (db : DB) (b : Body) :
    (∀ x : Int, truthyN b.playerId = true → truthyN b.coachId = true →
      b.rating = JVal.val x → (x < 1 ∨ 10 < x) →
      evalsCreate db b = (⟨500, .err "Failed to create evaluation"⟩, db))
    ∧ (∀ x : Rat, truthyN b.playerId = true → truthyS b.matchDate = true →
      b.passAccuracy = JVal.val x → (x < 0 ∨ 100 < x) →
      statsCreate db b = (⟨500, .err "Failed to create stat"⟩, db)) := by
  constructor
  · intro x hp hc hr hout
    have hval : (decide (1 ≤ x) && decide (x ≤ 10)) = false := by
      rcases hout with h | h <;> simp <;> omega
    simp [evalsCreate, DB.createEval, evalValid, hp, hc, hr, hval]
  · intro x hp hm hpa hout
    have hval : (decide ((0 : Rat) ≤ x) && decide (x ≤ (100 : Rat))) = false := by
      rcases hout with h | h <;> simp [not_le.mpr h]
    simp [statsCreate, DB.createStat, statValid, hp, hm, hpa, hval]

/-- Witness for the amended C4: concrete out-of-range writes (rating 11,
passAccuracy 150) on a store with a valid player and coach are both
answered with the 500 response and leave the store unchanged. -/
theorem c4_amended_range_witness :
    evalsCreate db1 badRatingBody
      = (⟨500, .err "Failed to create evaluation"⟩, db1)
    ∧ statsCreate db1 badAccuracyBody
      = (⟨500, .err "Failed to create stat"⟩, db1) := by
  constructor
  · exact (c4_amended_range_rejected db1 badRatingBody).1 11 rfl rfl rfl
      (Or.inr (by norm_num))
  · exact (c4_amended_range_rejected db1 badAccuracyBody).2 150 rfl rfl rfl
      (Or.inr (by norm_num))

/-! ### Claim C5 -/

/-- C5: each create route rejects with its presence-validation 400 and an
untouched store exactly when its own required set is not all present
(player: name; stat: playerId and matchDate; session: playerId and date;
evaluation: playerId, coachId and rating, the last a null check), so the
presence gate covers exactly that endpoint's required set and runs before
any storage access. -/
theorem c5_required_fields_gate (db : DB) :
    (∀ b : Body, playersCreate db b = (⟨400, .err "Name is required"⟩, db)
      ↔ truthyS b.name = false)
    ∧ (∀ b : Body,
      statsCreate db b = (⟨400, .err "playerId and matchDate required"⟩, db)
      ↔ (truthyN b.playerId && truthyS b.matchDate) = false)
    ∧ (∀ b : Body,
      sessionsCreate db b = (⟨400, .err "playerId and date required"⟩, db)
      ↔ (truthyN b.playerId && truthyS b.date) = false)
    ∧ (∀ b : Body,
      evalsCreate db b = (⟨400, .err "playerId, coachId, and rating required"⟩, db)
      ↔ (truthyN b.playerId && truthyN b.coachId && b.rating.isVal) = false) := by
  refine ⟨?_, ?_, ?_, ?_⟩
  · intro b
    unfold playersCreate
    cases hn : truthyS b.name
    · simp [hn]
    · simp only [hn, Bool.not_true, Bool.false_eq_true, if_false]
      split <;> simp
  · intro b
    unfold statsCreate
    cases hn : (truthyN b.playerId && truthyS b.matchDate)
    · simp [hn]
    · simp only [hn, Bool.not_true, Bool.false_eq_true, if_false]
      split <;> simp
  · intro b
    unfold sessionsCreate
    cases hn : (truthyN b.playerId && truthyS b.date)
    · simp [hn]
    · simp only [hn, Bool.not_true, Bool.false_eq_true, if_false]
      split <;> simp
  · intro b
    unfold evalsCreate
    cases hn : (truthyN b.playerId && truthyN b.coachId && b.rating.isVal)
    · simp [hn]
    · simp only [hn, Bool.not_true, Bool.false_eq_true, if_false]
      split <;> simp

/-- Witness for C5: on the empty store, the empty body is rejected by all
four create routes with each route's own 400 presence error. -/
theorem c5_required_fields_witness :
    playersCreate db0 {} = (⟨400, .err "Name is required"⟩, db0)
    ∧ statsCreate db0 {} = (⟨400, .err "playerId and matchDate required"⟩, db0)
    ∧ sessionsCreate db0 {} = (⟨400, .err "playerId and date required"⟩, db0)
    ∧ evalsCreate db0 {} = (⟨400, .err "playerId, coachId, and rating required"⟩, db0) := by
  refine ⟨?_, ?_, ?_, ?_⟩
  · exact ((c5_required_fields_gate db0).1 {}).mpr rfl
  · exact ((c5_required_fields_gate db0).2.1 {}).mpr rfl
  · exact ((c5_required_fields_gate db0).2.2.1 {}).mpr rfl
  · exact ((c5_required_fields_gate db0).2.2.2 {}).mpr rfl

/-! ### Claim C1 -/

/-- C1: the role policy is a static map — the requireCoach gate is mounted
on exactly PUT /api/players/:id, POST /api/training-sessions and POST
/api/evaluations; on those routes a request with a valid token whose role
is not "coach" is denied 403, and one whose role is "coach" passes the
role gate (no 403 can arise); every other route, in particular DELETE
/api/players/:id and POST /api/players, never answers 403 and treats any
two verified identities identically, regardless of role. -/
theorem c1_coach_role_policy (key : String) (now : Nat) (db : DB) (b : Body)
    (t u : Token) (hk : t.key = key) (he : now ≤ t.exp)
    (hk2 : u.key = key) (he2 : now ≤ u.exp) :
    (∀ r : Route, routeRequiresCoach r = true ↔
      ((∃ i, r = .putPlayer i) ∨ r = .createSession ∨ r = .createEval))
    ∧ (∀ r : Route, t.claims.role ≠ "coach" →
      ((app key now db ⟨r, .bearer (.signed t), b⟩).1.status = 403 ↔
        routeRequiresCoach r = true))
    ∧ (∀ r : Route, t.claims.role = "coach" →
      (app key now db ⟨r, .bearer (.signed t), b⟩).1.status ≠ 403)
    ∧ (∀ r : Route, routeRequiresCoach r = false →
      app key now db ⟨r, .bearer (.signed t), b⟩
        = app key now db ⟨r, .bearer (.signed u), b⟩) := by
  have ha := requireAuth_ok key now t hk he
  have ha2 := requireAuth_ok key now u hk2 he2
  refine ⟨?_, ?_, ?_, ?_⟩
  · intro r
    cases r <;> simp [routeRequiresCoach]
  · intro r hrole
    have hb : (t.claims.role == "coach") = false := by simp [hrole]
    cases r <;>
      simp [app, withAuth, withCoach, requireCoach, ha, hb, routeRequiresCoach,
        authRegister_status_ne, authLogin_status_ne, playersShow_status_ne,
        playersCreate_status_ne, playersUpdate_status_ne,
        playersDelete_status_ne, statsCreate_status_ne,
        sessionsCreate_status_ne, evalsCreate_status_ne,
        statsIndex, sessionsIndex, evalsIndex]
  · intro r hrole
    have hb : (t.claims.role == "coach") = true := by simp [hrole]
    cases r <;>
      simp [app, withAuth, withCoach, requireCoach, ha, hb,
        authRegister_status_ne, authLogin_status_ne, playersShow_status_ne,
        playersCreate_status_ne, playersUpdate_status_ne,
        playersDelete_status_ne, statsCreate_status_ne,
        sessionsCreate_status_ne, evalsCreate_status_ne,
        statsIndex, sessionsIndex, evalsIndex]
  · intro r hr
    cases r <;> simp_all [app, withAuth, withCoach, requireCoach,
      routeRequiresCoach]

/-- Witness for C1: with a valid player-role token, POST
/api/training-sessions is denied 403; the same request with a coach token
is not denied by the role gate; and DELETE on a missing id answers the
player token and the coach token identically. -/
theorem c1_coach_role_policy_witness :
    (app "k" 0 db1 ⟨.createSession, .bearer (.signed tokPlayer), {}⟩).1.status = 403
    ∧ (app "k" 0 db1 ⟨.createSession, .bearer (.signed tokCoach), {}⟩).1.status ≠ 403
    ∧ app "k" 0 db1 ⟨.deletePlayer 9, .bearer (.signed tokPlayer), {}⟩
      = app "k" 0 db1 ⟨.deletePlayer 9, .bearer (.signed tokCoach), {}⟩ := by
  refine ⟨?_, ?_, ?_⟩
  · exact ((c1_coach_role_policy "k" 0 db1 {} tokPlayer tokCoach rfl (by decide)
      rfl (by decide)).2.1 .createSession (by decide)).mpr rfl
  · exact (c1_coach_role_policy "k" 0 db1 {} tokCoach tokPlayer rfl (by decide)
      rfl (by decide)).2.2.1 .createSession rfl
  · exact (c1_coach_role_policy "k" 0 db1 {} tokPlayer tokCoach rfl (by decide)
      rfl (by decide)).2.2.2 (.deletePlayer 9) rfl

/-! ### Claim C2 -/

/-- C2: a denied request has no side effects — whenever requireAuth fails
on a protected route the response is exactly the middleware's 401 error
with the store unchanged, and whenever requireAuth succeeds but the role
gate denies on a coach route the response is exactly the 403 error with
the store unchanged; no storage operation has executed. -/
theorem c2_denied_request_no_side_effects (key : String) (now : Nat)
    (db : DB) (req : Request) :
    (∀ e : Response, requireAuth key now req.auth = .error e →
      routeRequiresAuth req.route = true → app key now db req = (e, db))
    ∧ (∀ c : Claims, requireAuth key now req.auth = .ok c →
      c.role ≠ "coach" → routeRequiresCoach req.route = true →
      app key now db req = (⟨403, .err "Manager or Admin role required"⟩, db)) := by
  obtain ⟨r, a, b⟩ := req
  constructor
  · intro e he hr
    cases r <;> simp_all [app, withAuth, routeRequiresAuth]
  · intro c hc hrole hr
    have hb : (c.role == "coach") = false := by simp [hrole]
    cases r <;> simp_all [app, withAuth, withCoach, requireCoach,
      routeRequiresCoach]

/-- Witness for C2: a request without an Authorization header is answered
401 with the store unchanged, and a coach-route request with a valid
player-role token is answered 403 with the store unchanged. -/
theorem c2_denied_request_witness :
    app "k" 0 db1 ⟨.listPlayers, .missing, {}⟩
      = (⟨401, .err "Access denied. No token provided."⟩, db1)
    ∧ app "k" 0 db1 ⟨.putPlayer 1, .bearer (.signed tokPlayer), {}⟩
      = (⟨403, .err "Manager or Admin role required"⟩, db1) := by
  constructor
  · exact (c2_denied_request_no_side_effects "k" 0 db1
      ⟨.listPlayers, .missing, {}⟩).1 _ rfl rfl
  · exact (c2_denied_request_no_side_effects "k" 0 db1
      ⟨.putPlayer 1, .bearer (.signed tokPlayer), {}⟩).2
      tokPlayer.claims rfl (by decide) rfl

/-! ### Claim C6 -/

/-- C6: every token issued at login carries exactly the identity's id,
role and email as claims with expiry now + 86400 seconds (24 hours),
signed with the server key; a well-signed token is accepted by requireAuth
at any time up to its expiry; and strictly after its expiry every
protected route answers 401 "Token expired" with the store unchanged. -/
theorem c6_token_issue_expiry (key : String) (now tnow : Nat) (db : DB)
    (b : Body) :
    (∀ m t i n em rl,
      (authLogin key now db b).1.body = .loggedIn m t i n em rl →
      t.claims = ⟨i, rl, em⟩ ∧ t.exp = now + 86400 ∧ t.key = key)
    ∧ (∀ t : Token, t.key = key → tnow ≤ t.exp →
      requireAuth key tnow (.bearer (.signed t)) = .ok t.claims)
    ∧ (∀ t : Token, t.key = key → t.exp < tnow → ∀ r : Route,
      routeRequiresAuth r = true →
      app key tnow db ⟨r, .bearer (.signed t), b⟩
        = (⟨401, .err "Token expired. Please log in again."⟩, db)) := by
  refine ⟨?_, ?_, ?_⟩
  · intro m t i n em rl h
    unfold authLogin at h
    split at h
    · simp at h
    split at h
    · simp at h
    · split at h
      · simp at h
      · simp only [RespBody.loggedIn.injEq] at h
        obtain ⟨-, ht, hi, -, hem, hrl⟩ := h
        subst ht hi hem hrl
        simp [jwtSign]
  · intro t hk he
    exact requireAuth_ok key tnow t hk he
  · intro t hk hlt r hr
    have hx : requireAuth key tnow (.bearer (.signed t))
        = .error ⟨401, .err "Token expired. Please log in again."⟩ := by
      subst hk
      simp [requireAuth, jwtVerify, hlt]
    cases r <;> simp_all [app, withAuth, routeRequiresAuth]

/-- Witness for C6: the coach token is accepted at exactly its expiry
instant 86400 and the same token is rejected 401 at 86401. -/
theorem c6_token_expiry_witness :
    requireAuth "k" 86400 (.bearer (.signed tokCoach)) = .ok tokCoach.claims
    ∧ app "k" 86401 db1 ⟨.listPlayers, .bearer (.signed tokCoach), {}⟩
      = (⟨401, .err "Token expired. Please log in again."⟩, db1) := by
  constructor
  · exact (c6_token_issue_expiry "k" 0 86400 db1 {}).2.1 tokCoach rfl
      (by decide)
  · exact (c6_token_issue_expiry "k" 0 86401 db1 {}).2.2 tokCoach rfl
      (by decide) .listPlayers rfl

/-! ### Claim C8 -/

/-- A PUT body whose name key is an explicit JSON null. -/
def nullNameBody : Body := { name := JVal.null }

/-- C8 counterexample: PUT /api/players/2 with a valid coach token on a
store whose only player has id 1 — an id resolving to no stored Player —
but with body name: null is answered 500 "Failed to update player", not
404: Sequelize Model.update keeps the explicit null, validates it against
the notNull name column before any query, and the route's catch answers
500.  So the 404 the claim asserts for every request on a missing id does
not hold for every body. -/
theorem c8_counterexample_null_name :
    app "k" 0 db1 ⟨.putPlayer 2, .bearer (.signed tokCoach), nullNameBody⟩
      = (⟨500, .err "Failed to update player"⟩, db1)
    ∧ db1.players.all (fun p => !(p.id == 2)) = true
    ∧ (500 : Nat) ≠ 404 := by
  refine ⟨?_, ?_, ?_⟩
  · decide
  · decide
  · decide

/-- C8 amended: for an id that resolves to no stored Player, GET and
DELETE on /api/players/:id answer exactly 404 "Player not found" with the
store unchanged; PUT (with a valid coach token) answers that same 404 for
every body whose supplied values pass update validation (the name key is
not an explicit null), and for every body it answers either that 404 or
the 500 update-validation error, always with the store unchanged — never
a silent success; and each list-by-scope route answers 200 with the empty
list, not an error, when no matching child rows exist. -/
theorem c8_missing_resource (key : String) (now : Nat) (db : DB) (b : Body)
    (t : Token) (hk : t.key = key) (he : now ≤ t.exp)
    (hcoach : t.claims.role = "coach") (i : Nat)
    (hmiss : db.players.all (fun p => !(p.id == i)) = true) :
    app key now db ⟨.getPlayer i, .bearer (.signed t), b⟩
      = (⟨404, .err "Player not found"⟩, db)
    ∧ (b.name.isNull = false →
      app key now db ⟨.putPlayer i, .bearer (.signed t), b⟩
        = (⟨404, .err "Player not found"⟩, db))
    ∧ (app key now db ⟨.putPlayer i, .bearer (.signed t), b⟩
        = (⟨404, .err "Player not found"⟩, db)
      ∨ app key now db ⟨.putPlayer i, .bearer (.signed t), b⟩
        = (⟨500, .err "Failed to update player"⟩, db))
    ∧ app key now db ⟨.deletePlayer i, .bearer (.signed t), b⟩
      = (⟨404, .err "Player not found"⟩, db)
    ∧ (∀ pid, db.stats.all (fun s => !(s.playerId == pid)) = true →
      app key now db ⟨.listStats pid, .bearer (.signed t), b⟩
        = (⟨200, .stats []⟩, db))
    ∧ (∀ pid, db.sessions.all (fun s => !(s.playerId == pid)) = true →
      app key now db ⟨.listSessions pid, .bearer (.signed t), b⟩
        = (⟨200, .sessions []⟩, db))
    ∧ (∀ pid, db.evals.all (fun e => !(e.playerId == pid)) = true →
      app key now db ⟨.listEvals pid, .bearer (.signed t), b⟩
        = (⟨200, .evaluations []⟩, db)) := by
  have ha := requireAuth_ok key now t hk he
  have hb : (t.claims.role == "coach") = true := by simp [hcoach]
  have hfind : db.players.find? (fun p => p.id == i) = none := by
    rw [List.find?_eq_none]
    intro x hx
    have := List.all_eq_true.mp hmiss x hx
    simp_all
  have hfil : db.players.filter (fun p => p.id == i) = [] := by
    rw [List.filter_eq_nil_iff]
    intro x hx
    have := List.all_eq_true.mp hmiss x hx
    simp_all
  have hput : ∀ hnn : b.name.isNull = false,
      app key now db ⟨.putPlayer i, .bearer (.signed t), b⟩
        = (⟨404, .err "Player not found"⟩, db) := by
    intro hnn
    simp [app, withAuth, withCoach, requireCoach, ha, hb, playersUpdate,
      DB.updatePlayer, hnn, hfil]
  refine ⟨?_, hput, ?_, ?_, ?_, ?_, ?_⟩
  · simp [app, withAuth, ha, playersShow, hfind]
  · cases hnn : b.name.isNull
    · exact Or.inl (hput hnn)
    · refine Or.inr ?_
      simp [app, withAuth, withCoach, requireCoach, ha, hb, playersUpdate,
        DB.updatePlayer, hnn]
  · simp [app, withAuth, ha, playersDelete, DB.destroyPlayer, hfil]
  · intro pid hp
    have : db.stats.filter (fun s => s.playerId == pid) = [] := by
      rw [List.filter_eq_nil_iff]
      intro x hx
      have := List.all_eq_true.mp hp x hx
      simp_all
    simp [app, withAuth, ha, statsIndex, this]
  · intro pid hp
    have : db.sessions.filter (fun s => s.playerId == pid) = [] := by
      rw [List.filter_eq_nil_iff]
      intro x hx
      have := List.all_eq_true.mp hp x hx
      simp_all
    simp [app, withAuth, ha, sessionsIndex, this]
  · intro pid hp
    have : db.evals.filter (fun e => e.playerId == pid) = [] := by
      rw [List.filter_eq_nil_iff]
      intro x hx
      have := List.all_eq_true.mp hp x hx
      simp_all
    simp [app, withAuth, ha, evalsIndex, this]

/-- Witness for the amended C8: on a store whose only player has id 1,
GET, PUT (empty body, so no explicit null name) and DELETE for id 2 each
answer 404 with the store unchanged, and the stat list for playerId 5
answers 200 with the empty list. -/
theorem c8_missing_resource_witness :
    app "k" 0 db1 ⟨.getPlayer 2, .bearer (.signed tokCoach), {}⟩
      = (⟨404, .err "Player not found"⟩, db1)
    ∧ app "k" 0 db1 ⟨.putPlayer 2, .bearer (.signed tokCoach), {}⟩
      = (⟨404, .err "Player not found"⟩, db1)
    ∧ app "k" 0 db1 ⟨.deletePlayer 2, .bearer (.signed tokCoach), {}⟩
      = (⟨404, .err "Player not found"⟩, db1)
    ∧ app "k" 0 db1 ⟨.listStats 5, .bearer (.signed tokCoach), {}⟩
      = (⟨200, .stats []⟩, db1) := by
  have h := c8_missing_resource "k" 0 db1 {} tokCoach rfl (by decide) rfl 2
    (by decide)
  exact ⟨h.1, h.2.1 rfl, h.2.2.2.1, h.2.2.2.2.1 5 (by decide)⟩

/-! ### Claim C9 -/

/-- Referential integrity: every stat, session and evaluation references
an existing player id. -/
def integrity (db : DB) : Bool :=
  db.stats.all (fun s => db.players.any (fun p => p.id == s.playerId)) &&
  db.sessions.all (fun s => db.players.any (fun p => p.id == s.playerId)) &&
  db.evals.all (fun e => db.players.any (fun p => p.id == e.playerId))

/-- Filtering for a predicate right after filtering for its negation
leaves nothing. -/
theorem filter_not_self {α : Type} (l : List α) (f : α → Bool) :
    (l.filter (fun x => !(f x))).filter f = [] := by
  rw [List.filter_eq_nil_iff]
  intro x hx
  have := (List.mem_filter.mp hx).2
  simp_all

/-- Login never changes the store. -/
theorem authLogin_snd (key : String) (now : Nat) (db : DB) (b : Body) :
    (authLogin key now db b).2 = db := by
  unfold authLogin
  repeat' split
  all_goals rfl

/-- Fetching one player never changes the store. -/
theorem playersShow_snd (db : DB) (i : Nat) : (playersShow db i).2 = db := by
  unfold playersShow
  split <;> rfl

/-- Registration preserves referential integrity (it only touches the
users table). -/
theorem integrity_authRegister (db : DB) (b : Body)
    (h : integrity db = true) : integrity (authRegister db b).2 = true := by
  unfold authRegister
  split
  · exact h
  split
  · exact h
  rw [createUser_spec]
  split <;> rename_i heq <;> split at heq <;> cases heq
  · exact h
  · exact h

/-- Player creation preserves referential integrity (the player set only
grows). -/
theorem integrity_playersCreate (db : DB) (b : Body)
    (h : integrity db = true) : integrity (playersCreate db b).2 = true := by
  have hgrow : ∀ (p : Player) (db2 : DB),
      db2.players = db.players ++ [p] → db2.stats = db.stats →
      db2.sessions = db.sessions → db2.evals = db.evals →
      integrity db2 = true := by
    intro p db2 hp hs hss he2
    simp only [integrity, Bool.and_eq_true, List.all_eq_true, hp, hs, hss, he2]
      at h ⊢
    refine ⟨⟨fun s hs3 => ?_, fun s hs3 => ?_⟩, fun e he3 => ?_⟩
    · have := h.1.1 s hs3
      simp [List.any_append, this]
    · have := h.1.2 s hs3
      simp [List.any_append, this]
    · have := h.2 e he3
      simp [List.any_append, this]
  unfold playersCreate
  split
  · exact h
  · cases hcp : db.createPlayer (b.name.getD "") b.age.toOpt b.position.toOpt
        b.team.toOpt (if truthyN b.userId then b.userId.toOpt else none) with
    | error e => exact h
    | ok pr =>
      obtain ⟨p, db2⟩ := pr
      simp only [DB.createPlayer] at hcp
      repeat' split at hcp
      all_goals cases hcp
      all_goals exact hgrow _ _ rfl rfl rfl rfl

/-- Mapping the update function over the players list leaves every id in
place. -/
theorem any_id_map_update (l : List Player) (i : Nat) (b : Body) (x : Nat) :
    (l.map (fun p => if p.id == i then p.applyUpdate b else p)).any
      (fun p => p.id == x) = l.any (fun p => p.id == x) := by
  induction l with
  | nil => rfl
  | cons a l ih =>
    simp only [List.map_cons, List.any_cons, ih]
    congr 1
    split <;> rfl

/-- Player update preserves referential integrity (ids are untouched). -/
theorem integrity_playersUpdate (db : DB) (i : Nat) (b : Body)
    (h : integrity db = true) : integrity (playersUpdate db i b).2 = true := by
  have hmap : ∀ db3 : DB,
      db3.players
        = db.players.map (fun p => if p.id == i then p.applyUpdate b else p) →
      db3.stats = db.stats → db3.sessions = db.sessions →
      db3.evals = db.evals → integrity db3 = true := by
    intro db3 hp hs hss he2
    simp only [integrity, Bool.and_eq_true, List.all_eq_true, hp, hs, hss, he2]
      at h ⊢
    refine ⟨⟨fun s hs3 => ?_, fun s hs3 => ?_⟩, fun e he3 => ?_⟩
    · rw [any_id_map_update]
      exact h.1.1 s hs3
    · rw [any_id_map_update]
      exact h.1.2 s hs3
    · rw [any_id_map_update]
      exact h.2 e he3
  unfold playersUpdate
  split <;> rename_i heq
  · exact h
  · simp only [DB.updatePlayer] at heq
    split at heq
    · cases heq
    split at heq
    · cases heq
    · cases heq
      split
      · exact h
      split
      · exact hmap _ rfl rfl rfl rfl
      · exact hmap _ rfl rfl rfl rfl

/-- Cascade deletion of a player preserves referential integrity: every
surviving child's player also survives the delete. -/
theorem integrity_destroyPlayer (db : DB) (i : Nat)
    (h : integrity db = true) : integrity (db.destroyPlayer i).2 = true := by
  unfold DB.destroyPlayer
  simp only [integrity, Bool.and_eq_true, List.all_eq_true] at h ⊢
  refine ⟨⟨fun s hs => ?_, fun s hs => ?_⟩, fun e he => ?_⟩
  · obtain ⟨hs1, hs2⟩ := List.mem_filter.mp hs
    have := h.1.1 s hs1
    rw [List.any_eq_true] at this ⊢
    obtain ⟨p, hp, hpe⟩ := this
    refine ⟨p, List.mem_filter.mpr ⟨hp, ?_⟩, hpe⟩
    simp only [beq_iff_eq] at hpe
    simp_all
  · obtain ⟨hs1, hs2⟩ := List.mem_filter.mp hs
    have := h.1.2 s hs1
    rw [List.any_eq_true] at this ⊢
    obtain ⟨p, hp, hpe⟩ := this
    refine ⟨p, List.mem_filter.mpr ⟨hp, ?_⟩, hpe⟩
    simp only [beq_iff_eq] at hpe
    simp_all
  · obtain ⟨he1, he2⟩ := List.mem_filter.mp he
    have := h.2 e he1
    rw [List.any_eq_true] at this ⊢
    obtain ⟨p, hp, hpe⟩ := this
    refine ⟨p, List.mem_filter.mpr ⟨hp, ?_⟩, hpe⟩
    simp only [beq_iff_eq] at hpe
    simp_all

/-- The delete route preserves referential integrity. -/
theorem integrity_playersDelete (db : DB) (i : Nat)
    (h : integrity db = true) : integrity (playersDelete db i).2 = true := by
  simp only [playersDelete, DB.destroyPlayer]
  split
  · exact h
  · exact integrity_destroyPlayer db i h

/-- Stat creation preserves referential integrity: the storage layer only
accepts a stat whose playerId resolves. -/
theorem integrity_statsCreate (db : DB) (b : Body)
    (h : integrity db = true) : integrity (statsCreate db b).2 = true := by
  unfold statsCreate
  split
  · exact h
  · split <;> rename_i heq
    · simp only [DB.createStat] at heq
      split at heq
      · rename_i hval
        cases heq
        simp only [integrity, Bool.and_eq_true, List.all_eq_true] at h ⊢
        refine ⟨⟨fun s hs => ?_, h.1.2⟩, h.2⟩
        rcases List.mem_append.mp hs with hs | hs
        · exact h.1.1 s hs
        · simp only [List.mem_singleton] at hs
          subst hs
          simp only [statValid, Bool.and_eq_true] at hval
          exact hval.2
      · cases heq
    · exact h

/-- Session creation preserves referential integrity. -/
theorem integrity_sessionsCreate (db : DB) (b : Body)
    (h : integrity db = true) : integrity (sessionsCreate db b).2 = true := by
  unfold sessionsCreate
  split
  · exact h
  · split <;> rename_i heq
    · simp only [DB.createSession] at heq
      split at heq
      · rename_i hval
        cases heq
        simp only [integrity, Bool.and_eq_true, List.all_eq_true] at h ⊢
        refine ⟨⟨h.1.1, fun s hs => ?_⟩, h.2⟩
        rcases List.mem_append.mp hs with hs | hs
        · exact h.1.2 s hs
        · simp only [List.mem_singleton] at hs
          subst hs
          exact hval
      · cases heq
    · exact h

/-- Evaluation creation preserves referential integrity. -/
theorem integrity_evalsCreate (db : DB) (b : Body)
    (h : integrity db = true) : integrity (evalsCreate db b).2 = true := by
  unfold evalsCreate
  split
  · exact h
  · split <;> rename_i heq
    · simp only [DB.createEval] at heq
      split at heq
      · rename_i hval
        cases heq
        simp only [integrity, Bool.and_eq_true, List.all_eq_true] at h ⊢
        refine ⟨⟨h.1.1, h.1.2⟩, fun e he => ?_⟩
        rcases List.mem_append.mp he with he | he
        · exact h.2 e he
        · simp only [List.mem_singleton] at he
          subst he
          simp only [evalValid, Bool.and_eq_true] at hval
          exact hval.1.2
      · cases heq
    · exact h

/-- The requireAuth wrapper preserves any store property the wrapped
handler preserves. -/
theorem integrity_withAuth (key : String) (now : Nat) (db : DB)
    (a : AuthHeader) (k : Claims → Response × DB)
    (h : integrity db = true) (hk : ∀ c, integrity (k c).2 = true) :
    integrity (withAuth key now db a k).2 = true := by
  unfold withAuth
  split
  · exact h
  · apply hk

/-- The requireCoach wrapper preserves any store property the wrapped
handler preserves. -/
theorem integrity_withCoach (db : DB) (c : Claims)
    (k : Claims → Response × DB)
    (h : integrity db = true) (hk : ∀ c2, integrity (k c2).2 = true) :
    integrity (withCoach db c k).2 = true := by
  unfold withCoach
  split
  · exact h
  · apply hk

/-- C9: deleting a Player cascades to its children — after a successful
DELETE /api/players/:id no stored stat, session or evaluation references
the deleted id, and the three list endpoints for that id answer 200 with
the empty list; moreover referential integrity (no child references a
missing player) is preserved by every request the application can
process. -/
theorem c9_cascade_and_integrity (key : String) (now : Nat) (db : DB)
    (b : Body) (t : Token) (hk : t.key = key) (he : now ≤ t.exp) (i : Nat) :
    (∀ resp db₂,
      app key now db ⟨.deletePlayer i, .bearer (.signed t), b⟩ = (resp, db₂) →
      resp.status = 200 →
      db₂.stats.filter (fun s => s.playerId == i) = []
      ∧ db₂.sessions.filter (fun s => s.playerId == i) = []
      ∧ db₂.evals.filter (fun e => e.playerId == i) = []
      ∧ app key now db₂ ⟨.listStats i, .bearer (.signed t), b⟩
          = (⟨200, .stats []⟩, db₂)
      ∧ app key now db₂ ⟨.listSessions i, .bearer (.signed t), b⟩
          = (⟨200, .sessions []⟩, db₂)
      ∧ app key now db₂ ⟨.listEvals i, .bearer (.signed t), b⟩
          = (⟨200, .evaluations []⟩, db₂))
    ∧ (∀ req : Request, integrity db = true →
      integrity (app key now db req).2 = true) := by
  have ha := requireAuth_ok key now t hk he
  constructor
  · intro resp db₂ hE hst
    simp only [app, withAuth, ha, playersDelete, DB.destroyPlayer] at hE
    split at hE
    · cases hE
      simp at hst
    · cases hE
      refine ⟨?_, ?_, ?_, ?_, ?_, ?_⟩
      · exact filter_not_self db.stats (fun s => s.playerId == i)
      · exact filter_not_self db.sessions (fun s => s.playerId == i)
      · exact filter_not_self db.evals (fun e => e.playerId == i)
      · simp only [app, withAuth, ha, statsIndex]
        rw [filter_not_self db.stats (fun s => s.playerId == i)]
      · simp only [app, withAuth, ha, sessionsIndex]
        rw [filter_not_self db.sessions (fun s => s.playerId == i)]
      · simp only [app, withAuth, ha, evalsIndex]
        rw [filter_not_self db.evals (fun e => e.playerId == i)]
        simp
  · intro req hint
    obtain ⟨r, a, b2⟩ := req
    cases r
    case health => exact hint
    case root => exact hint
    case register => exact integrity_authRegister db b2 hint
    case login =>
      have hl : (app key now db ⟨Route.login, a, b2⟩).2 = db :=
        authLogin_snd key now db b2
      rw [hl]
      exact hint
    case logout => exact hint
    case listPlayers =>
      exact integrity_withAuth key now db a _ hint (fun c => hint)
    case getPlayer j =>
      exact integrity_withAuth key now db a _ hint
        (fun c => by rw [playersShow_snd]; exact hint)
    case createPlayer =>
      exact integrity_withAuth key now db a _ hint
        (fun c => integrity_playersCreate db b2 hint)
    case putPlayer j =>
      exact integrity_withAuth key now db a _ hint
        (fun c => integrity_withCoach db c _ hint
          (fun c2 => integrity_playersUpdate db j b2 hint))
    case deletePlayer j =>
      exact integrity_withAuth key now db a _ hint
        (fun c => integrity_playersDelete db j hint)
    case listStats pid =>
      exact integrity_withAuth key now db a _ hint (fun c => hint)
    case createStat =>
      exact integrity_withAuth key now db a _ hint
        (fun c => integrity_statsCreate db b2 hint)
    case listSessions pid =>
      exact integrity_withAuth key now db a _ hint (fun c => hint)
    case createSession =>
      exact integrity_withAuth key now db a _ hint
        (fun c => integrity_withCoach db c _ hint
          (fun c2 => integrity_sessionsCreate db b2 hint))
    case listEvals pid =>
      exact integrity_withAuth key now db a _ hint (fun c => hint)
    case createEval =>
      exact integrity_withAuth key now db a _ hint
        (fun c => integrity_withCoach db c _ hint
          (fun c2 => integrity_evalsCreate db b2 hint))

/-- A store with a coach, two players and one stat, session and
evaluation, all referencing player 1. -/
def db2 : DB :=
  ⟨[⟨1, "Coach Carter", "c@x.com", bcryptHash "pw", "coach"⟩],
   [⟨1, "Leo", none, none, none, none⟩, ⟨2, "Kyl", none, none, none, none⟩],
   [⟨1, 1, some 2, some 1, none, none, "2025-10-15"⟩],
   [⟨1, 1, "2025-11-01", some 75, some "Technical", none⟩],
   [⟨1, 1, 1, 9, none, none, none⟩],
   2, 3, 2, 2, 2⟩

/-- The store db2 after player 1 is deleted with its cascade. -/
def db2del : DB :=
  ⟨[⟨1, "Coach Carter", "c@x.com", bcryptHash "pw", "coach"⟩],
   [⟨2, "Kyl", none, none, none, none⟩], [], [], [], 2, 3, 2, 2, 2⟩

/-- Witness for C9: deleting player 1 from db2 leaves no child row
referencing id 1, the three list endpoints answer the empty list, and the
delete request preserves integrity. -/
theorem c9_cascade_witness :
    (db2del.stats.filter (fun s => s.playerId == 1) = []
     ∧ db2del.sessions.filter (fun s => s.playerId == 1) = []
     ∧ db2del.evals.filter (fun e => e.playerId == 1) = []
     ∧ app "k" 0 db2del ⟨.listStats 1, .bearer (.signed tokCoach), {}⟩
         = (⟨200, .stats []⟩, db2del)
     ∧ app "k" 0 db2del ⟨.listSessions 1, .bearer (.signed tokCoach), {}⟩
         = (⟨200, .sessions []⟩, db2del)
     ∧ app "k" 0 db2del ⟨.listEvals 1, .bearer (.signed tokCoach), {}⟩
         = (⟨200, .evaluations []⟩, db2del))
    ∧ integrity (app "k" 0 db2
        ⟨.deletePlayer 1, .bearer (.signed tokCoach), {}⟩).2 = true := by
  constructor
  · exact (c9_cascade_and_integrity "k" 0 db2 {} tokCoach rfl (by decide) 1).1
      ⟨200, .msg "Player deleted successfully"⟩ db2del (by decide) rfl
  · exact (c9_cascade_and_integrity "k" 0 db2 {} tokCoach rfl (by decide) 1).2
      ⟨.deletePlayer 1, .bearer (.signed tokCoach), {}⟩ (by decide)

end PlayerAPI
